import Mathlib

/-
Verification of the task view-state reconciliation logic of the
microsoft-graph-toolkit beta task components.

The development shallowly embeds:
  - the planner graph wrappers (graph.planner: request construction with
    headers and permission scopes), and
  - the MgtTodo component's view-state operations (render filtering,
    updateTaskStatus, removeTask, addTask, handleTaskCheckClick,
    hideNewTaskPanel).

Asynchronous gateway calls are modelled by passing the call's outcome
(`Except GatewayError α`) into the operation; a JS exception thrown at an
`await` (or a null dereference) aborts the rest of the async function, so
each operation's embedding returns the state exactly as it stands at the
point where control leaves the function on that path.  Each operation also
returns the list of gateway calls it issued.
-/

namespace MgtTodo

/-- Task status enumeration (graph.planner TaskStatus). -/
inductive TaskStatus where
  | notStarted
  | inProgress
  | completed
  | deferred
  | waitingOnOthers
deriving DecidableEq, Repr

/-- A to-do task record: identifier, title, status, optional due timestamp. -/
structure TodoTask where
  id : String
  title : String
  status : TaskStatus
  dueDateTime : Option String := none
deriving DecidableEq, Repr

/-- A task list (container): identifier and display name. -/
structure TodoTaskList where
  id : String
  displayName : String
deriving DecidableEq, Repr

/-- A transport or HTTP failure surfaced by the gateway. -/
structure GatewayError where
  message : String
deriving DecidableEq, Repr

/-- HTTP method of a graph request. -/
inductive HttpMethod where
  | get
  | post
  | patch
  | delete
deriving DecidableEq, Repr

/-- The request a graph wrapper builds: path, method, headers and the
delegated permission scopes attached through middleware options. -/
structure GraphRequest where
  path : String
  method : HttpMethod
  headers : List (String × String)
  scopes : List String
deriving DecidableEq, Repr

/-- GraphHelpers.prepScopes: wraps the scope for middlewareOptions. -/
def prepScopes (scope : String) : List String := [scope]

/-- graph.planner deletePlannerTask: DELETE /planner/tasks/taskId. -/
def deletePlannerTask (taskId : String) : GraphRequest :=
  { path := "/planner/tasks/" ++ taskId,
    method := HttpMethod.delete,
    headers := [("Cache-Control", "no-store")],
    scopes := prepScopes "Group.ReadWrite.All" }

/-- graph.planner createPlannerTask: POST /planner/tasks. -/
def createPlannerTask (taskData : String) : GraphRequest :=
  { path := "/planner/tasks",
    method := HttpMethod.post,
    headers := [("Cache-Control", "no-store")],
    scopes := prepScopes "Group.ReadWrite.All" }

/-- graph.planner updatePlannerTask: PATCH /planner/tasks/taskId. -/
def updatePlannerTask (taskId : String) (details : String) : GraphRequest :=
  { path := "/planner/tasks/" ++ taskId,
    method := HttpMethod.patch,
    headers := [("Cache-Control", "no-store")],
    scopes := prepScopes "Group.ReadWrite.All" }

/-- graph.planner assignPeopleToTask: delegates to updatePlannerTask. -/
def assignPeopleToTask (taskId : String) (people : String) : GraphRequest :=
  updatePlannerTask taskId people

/-- graph.planner getPlannerPlan: GET /planner/plans/planId. -/
def getPlannerPlan (planId : String) : GraphRequest :=
  { path := "/planner/plans/" ++ planId,
    method := HttpMethod.get,
    headers := [("Cache-Control", "no-store")],
    scopes := prepScopes "Group.Read.All" }

/-- graph.planner getMyPlannerPlans: GET /me/planner/plans. -/
def getMyPlannerPlans : GraphRequest :=
  { path := "/me/planner/plans",
    method := HttpMethod.get,
    headers := [("Cache-Control", "no-store")],
    scopes := prepScopes "Group.Read.All" }

/-- graph.planner getPlannerBucket: GET /planner/plans/planId/buckets/bucketId. -/
def getPlannerBucket (planId : String) (bucketId : String) : GraphRequest :=
  { path := "/planner/plans/" ++ planId ++ "/buckets/" ++ bucketId,
    method := HttpMethod.get,
    headers := [("Cache-Control", "no-store")],
    scopes := prepScopes "Group.Read.All" }

/-- graph.planner getPlannerBuckets: GET /planner/plans/planId/buckets. -/
def getPlannerBuckets (planId : String) : GraphRequest :=
  { path := "/planner/plans/" ++ planId ++ "/buckets",
    method := HttpMethod.get,
    headers := [("Cache-Control", "no-store")],
    scopes := prepScopes "Group.Read.All" }

/-- graph.planner getPlannerTasks: GET /planner/buckets/bucketId/tasks. -/
def getPlannerTasks (bucketId : String) : GraphRequest :=
  { path := "/planner/buckets/" ++ bucketId ++ "/tasks",
    method := HttpMethod.get,
    headers := [("Cache-Control", "no-store")],
    scopes := prepScopes "Group.Read.All" }

/-- The MgtTodo component's mutable fields that the view-state operations
read or write.  `tasks = none` models the transient null task array during
a list load; `taskFilter` the user-supplied filter predicate. -/
structure MgtTodoState where
  readOnly : Bool
  isNewTaskVisible : Bool
  newTaskBeingAdded : Bool
  lists : List TodoTaskList
  tasks : Option (List TodoTask)
  hiddenTasks : List String
  loadingTasks : List String
  currentList : Option TodoTaskList
  isLoadingTasks : Bool
  newTaskName : String
  newTaskDueDate : Option String
  taskFilter : Option (TodoTask → Bool)

/-- The two flags a DOM event handler can set on the browser event. -/
structure DomEvent where
  propagationStopped : Bool
  defaultPrevented : Bool
deriving DecidableEq, Repr

/-- A remote call issued by an operation, with the arguments it sends. -/
inductive GatewayCall where
  | updateTask (listId : String) (taskId : String) (patch : TodoTask)
  | deleteTask (listId : String) (taskId : String)
  | createTask (listId : String) (title : String)
deriving DecidableEq, Repr

/-- The task rows MgtTodo.render produces: the task array (empty when null)
filtered first by the hidden set, then by taskFilter when one is set. -/
def renderedTasks (st : MgtTodoState) : List TodoTask :=
  match st.tasks with
  | none => []
  | some allTasks =>
    let ts := allTasks.filter (fun task => !(st.hiddenTasks.contains task.id))
    match st.taskFilter with
    | none => ts
    | some f => ts.filter f

/-- The state MgtTodo.updateTaskStatus establishes before its await: the
task id appended to loadingTasks and the shared task object's status flipped
(visible through the task array when the object is an element of it). -/
def updateTaskStatusPending (st : MgtTodoState) (task : TodoTask)
    (taskStatus : TaskStatus) : MgtTodoState :=
  { st with
    loadingTasks := st.loadingTasks ++ [task.id],
    tasks := st.tasks.map (fun ts =>
      ts.map (fun t => if t.id = task.id then { t with status := taskStatus } else t)) }

/-- MgtTodo.updateTaskStatus.  After the pending step, reading the id of a
null currentList throws before any call is issued; a rejected updateTodoTask
aborts the function at the await; on success the local variable is rebound
to the server task, the array entry at its index is replaced, and every
occurrence of the server task's id is filtered out of loadingTasks (a null
task array throws at findIndex, before that filter). -/
def updateTaskStatus (st : MgtTodoState) (task : TodoTask) (taskStatus : TaskStatus)
    (gw : Except GatewayError TodoTask) : MgtTodoState × List GatewayCall :=
  let st1 := updateTaskStatusPending st task taskStatus
  match st.currentList with
  | none => (st1, [])
  | some list =>
    let call := GatewayCall.updateTask list.id task.id { task with status := taskStatus }
    match gw with
    | Except.error _ => (st1, [call])
    | Except.ok serverTask =>
      match st1.tasks with
      | none => (st1, [call])
      | some ts =>
        let ts2 :=
          match ts.findIdx? (fun t => t.id == serverTask.id) with
          | some i => ts.set i serverTask
          | none => ts
        ({ st1 with
            tasks := some ts2,
            loadingTasks := st1.loadingTasks.filter (fun i => i != serverTask.id) },
         [call])

/-- The state MgtTodo.removeTask establishes before its await: the id
appended to hiddenTasks (optimistic hide). -/
def removeTaskPending (st : MgtTodoState) (taskId : String) : MgtTodoState :=
  { st with hiddenTasks := st.hiddenTasks ++ [taskId] }

/-- MgtTodo.removeTask.  Reading the id of a null currentList throws before
the call; a rejected deleteTodoTask aborts at the await; on success the task
is filtered out of the array (a null array throws first) and every
occurrence of the id is filtered out of hiddenTasks. -/
def removeTask (st : MgtTodoState) (taskId : String)
    (gw : Except GatewayError Unit) : MgtTodoState × List GatewayCall :=
  let st1 := removeTaskPending st taskId
  match st.currentList with
  | none => (st1, [])
  | some list =>
    let call := GatewayCall.deleteTask list.id taskId
    match gw with
    | Except.error _ => (st1, [call])
    | Except.ok _ =>
      match st1.tasks with
      | none => (st1, [call])
      | some ts =>
        ({ st1 with
            tasks := some (ts.filter (fun t => t.id != taskId)),
            hiddenTasks := st1.hiddenTasks.filter (fun i => i != taskId) },
         [call])

/-- MgtTodo.hideNewTaskPanel: closes the panel and clears the draft fields. -/
def hideNewTaskPanel (st : MgtTodoState) : MgtTodoState :=
  { st with isNewTaskVisible := false, newTaskDueDate := none, newTaskName := "" }

/-- MgtTodo.addTask.  Returns immediately when a submission is in flight or
the draft title is empty (falsy).  Otherwise marks the submission, issues
createTodoTask (a null currentList throws inside the try), unshifts the
returned task on success, and the finally block always clears the submitting
flag and hides the new-task panel. -/
def addTask (st : MgtTodoState) (gw : Except GatewayError TodoTask) :
    MgtTodoState × List GatewayCall :=
  if st.newTaskBeingAdded = true ∨ st.newTaskName = "" then (st, [])
  else
    let st1 := { st with newTaskBeingAdded := true }
    let step :=
      match st1.currentList with
      | none => (st1, ([] : List GatewayCall))
      | some list =>
        match gw with
        | Except.ok task =>
          ({ st1 with tasks := st1.tasks.map (fun ts => task :: ts) },
           [GatewayCall.createTask list.id st.newTaskName])
        | Except.error _ => (st1, [GatewayCall.createTask list.id st.newTaskName])
    (hideNewTaskPanel { step.1 with newTaskBeingAdded := false }, step.2)

/-- MgtTodo.handleTaskCheckClick.  When readOnly nothing happens and the
event is untouched; otherwise the toggle target is notStarted for a
completed task and completed for any other status, updateTaskStatus runs,
and the event is stopped and default-prevented. -/
def handleTaskCheckClick (st : MgtTodoState) (task : TodoTask)
    (gw : Except GatewayError TodoTask) (e : DomEvent) :
    MgtTodoState × List GatewayCall × DomEvent :=
  if st.readOnly = true then (st, [], e)
  else
    let taskStatus :=
      if task.status = TaskStatus.completed then TaskStatus.notStarted
      else TaskStatus.completed
    let r := updateTaskStatus st task taskStatus gw
    (r.1, r.2, { e with propagationStopped := true, defaultPrevented := true })

/-- Sample list used by concrete witnesses and counterexamples. -/
def listOne : TodoTaskList := { id := "L1", displayName := "My List" }

/-- Sample task used by concrete witnesses and counterexamples. -/
def taskOne : TodoTask := { id := "1", title := "task one", status := TaskStatus.notStarted }

/-- Sample gateway failure. -/
def gwErr : GatewayError := { message := "network" }

/-- Sample component state: one loaded list holding taskOne, nothing pending. -/
def st0 : MgtTodoState :=
  { readOnly := false,
    isNewTaskVisible := false,
    newTaskBeingAdded := false,
    lists := [listOne],
    tasks := some [taskOne],
    hiddenTasks := [],
    loadingTasks := [],
    currentList := some listOne,
    isLoadingTasks := false,
    newTaskName := "",
    newTaskDueDate := none,
    taskFilter := none }

/-- Sample untouched DOM event. -/
def ev0 : DomEvent := { propagationStopped := false, defaultPrevented := false }

/-- Sample state with a toggle already pending on taskOne. -/
def stPending : MgtTodoState := { st0 with loadingTasks := ["1"] }

/-- On the failure path of updateTaskStatus the resulting state is exactly
the pending state: the function aborts at (or before) the rejected await. -/
theorem updateTaskStatus_error_state (st : MgtTodoState) (task : TodoTask)
    (s : TaskStatus) (e : GatewayError) :
    (updateTaskStatus st task s (Except.error e)).1 = updateTaskStatusPending st task s := by
  unfold updateTaskStatus
  cases h : st.currentList <;> simp

/-- On the failure path of removeTask the resulting state is exactly the
pending state: the function aborts at (or before) the rejected await. -/
theorem removeTask_error_state (st : MgtTodoState) (taskId : String)
    (e : GatewayError) :
    (removeTask st taskId (Except.error e)).1 = removeTaskPending st taskId := by
  unfold removeTask
  cases h : st.currentList <;> simp

/-- C1 counterexample: starting from st0 (taskOne notStarted, loading empty),
a toggle to completed whose gateway call fails leaves the task completed
(not its prior status) and leaves the id in the loading set — the claimed
rollback and release do not happen. -/
theorem c1_counterexample :
    ¬ ((updateTaskStatus st0 taskOne TaskStatus.completed (Except.error gwErr)).1.tasks
          = some [taskOne]
        ∧ taskOne.id ∉ (updateTaskStatus st0 taskOne TaskStatus.completed
            (Except.error gwErr)).1.loadingTasks) := by
  decide

/-- C1 (amended): for every task and every toggleTaskStatus operation whose
gateway updateTask call fails, the flipped status persists in the task array
(the optimistic flip is not reverted) and the task's id is never removed from
the loading set on that path: the loading set afterwards is the prior set
with the id appended. -/
theorem c1_failure_keeps_flip_and_marker (st : MgtTodoState) (task : TodoTask)
    (s : TaskStatus) (e : GatewayError) :
    (updateTaskStatus st task s (Except.error e)).1.tasks
        = st.tasks.map (fun ts =>
            ts.map (fun t => if t.id = task.id then { t with status := s } else t))
      ∧ (updateTaskStatus st task s (Except.error e)).1.loadingTasks
        = st.loadingTasks ++ [task.id]
      ∧ task.id ∈ (updateTaskStatus st task s (Except.error e)).1.loadingTasks := by
  rw [updateTaskStatus_error_state]
  refine ⟨rfl, rfl, ?_⟩
  simp [updateTaskStatusPending]

/-- C2 counterexample: on the failure path a pending marker leaks — after a
failed toggle from st0 the id stays in loading, and after a failed remove
the id stays in hidden; neither membership is cleared when the outcome is
known. -/
theorem c2_counterexample :
    ¬ (taskOne.id ∉ (updateTaskStatus st0 taskOne TaskStatus.completed
          (Except.error gwErr)).1.loadingTasks
        ∧ "2" ∉ (removeTask st0 "2" (Except.error gwErr)).1.hiddenTasks) := by
  decide

/-- C2 (amended): for every task id, toggleTaskStatus appends the id to
loading and removeTask appends it to hidden before the remote call; on the
success path every occurrence of the id is removed from the respective set;
on the failure path the id is never removed and the appended marker remains. -/
theorem c2_markers_lifecycle (st : MgtTodoState) (task serverTask : TodoTask)
    (s : TaskStatus) (taskId : String) (e : GatewayError)
    (ts : List TodoTask) (list : TodoTaskList)
    (h1 : st.tasks = some ts) (h2 : st.currentList = some list)
    (h3 : serverTask.id = task.id) :
    task.id ∈ (updateTaskStatusPending st task s).loadingTasks
    ∧ taskId ∈ (removeTaskPending st taskId).hiddenTasks
    ∧ task.id ∉ (updateTaskStatus st task s (Except.ok serverTask)).1.loadingTasks
    ∧ taskId ∉ (removeTask st taskId (Except.ok ())).1.hiddenTasks
    ∧ (updateTaskStatus st task s (Except.error e)).1.loadingTasks
        = st.loadingTasks ++ [task.id]
    ∧ (removeTask st taskId (Except.error e)).1.hiddenTasks
        = st.hiddenTasks ++ [taskId] := by
  refine ⟨?_, ?_, ?_, ?_, ?_, ?_⟩
  · simp [updateTaskStatusPending]
  · simp [removeTaskPending]
  · simp only [updateTaskStatus, updateTaskStatusPending, h1, h2, Option.map_some]
    simp [List.mem_filter, h3]
  · simp only [removeTask, removeTaskPending, h1, h2]
    simp [List.mem_filter]
  · rw [updateTaskStatus_error_state]; rfl
  · rw [removeTask_error_state]; rfl

/-- C2 witness: the lifecycle theorem instantiated at st0, taskOne toggled to
completed with the server echoing the task, and id 2 removed. -/
theorem c2_markers_lifecycle_witness :
    taskOne.id ∈ (updateTaskStatusPending st0 taskOne TaskStatus.completed).loadingTasks
    ∧ "2" ∈ (removeTaskPending st0 "2").hiddenTasks
    ∧ taskOne.id ∉ (updateTaskStatus st0 taskOne TaskStatus.completed
        (Except.ok { taskOne with status := TaskStatus.completed })).1.loadingTasks
    ∧ "2" ∉ (removeTask st0 "2" (Except.ok ())).1.hiddenTasks
    ∧ (updateTaskStatus st0 taskOne TaskStatus.completed
        (Except.error gwErr)).1.loadingTasks = st0.loadingTasks ++ [taskOne.id]
    ∧ (removeTask st0 "2" (Except.error gwErr)).1.hiddenTasks
        = st0.hiddenTasks ++ ["2"] :=
  c2_markers_lifecycle st0 taskOne { taskOne with status := TaskStatus.completed }
    TaskStatus.completed "2" gwErr [taskOne] listOne rfl rfl rfl

/-- When not read-only and a list is selected, a check-click always issues
exactly one updateTask call carrying the toggled status. -/
theorem handleTaskCheckClick_calls (st : MgtTodoState) (task : TodoTask)
    (gw : Except GatewayError TodoTask) (ev : DomEvent) (list : TodoTaskList)
    (h1 : st.readOnly = false) (h2 : st.currentList = some list) :
    (handleTaskCheckClick st task gw ev).2.1
      = [GatewayCall.updateTask list.id task.id
          { task with status := if task.status = TaskStatus.completed
              then TaskStatus.notStarted else TaskStatus.completed }] := by
  unfold handleTaskCheckClick updateTaskStatus
  cases gw <;>
    cases h3 : (updateTaskStatusPending st task
        (if task.status = TaskStatus.completed then TaskStatus.notStarted
         else TaskStatus.completed)).tasks <;>
    simp [h1, h2, h3]

/-- C3 counterexample: with a toggle already pending on task 1 (loading =
[1]), a second check-click on task 1 is not a no-op: it issues a gateway
call and appends a duplicate 1 to the loading set. -/
theorem c3_counterexample :
    ¬ ((handleTaskCheckClick stPending taskOne (Except.error gwErr) ev0).2.1 = []
        ∧ (handleTaskCheckClick stPending taskOne (Except.error gwErr) ev0).1.loadingTasks
            = stPending.loadingTasks) := by
  decide

/-- C3 (amended): there is no pending gate — while a toggle on a task id is
in flight, a second check-click on the same task proceeds normally: it issues
a second updateTask gateway call, and the loading set at the moment of that
call holds the id at least twice. -/
theorem c3_second_toggle_proceeds (st : MgtTodoState) (task : TodoTask)
    (gw : Except GatewayError TodoTask) (ev : DomEvent) (list : TodoTaskList)
    (h1 : st.readOnly = false) (h2 : st.currentList = some list)
    (h3 : task.id ∈ st.loadingTasks) :
    (handleTaskCheckClick st task gw ev).2.1
      = [GatewayCall.updateTask list.id task.id
          { task with status := if task.status = TaskStatus.completed
              then TaskStatus.notStarted else TaskStatus.completed }]
    ∧ 2 ≤ ((updateTaskStatusPending st task
          (if task.status = TaskStatus.completed then TaskStatus.notStarted
           else TaskStatus.completed)).loadingTasks.count task.id) := by
  refine ⟨handleTaskCheckClick_calls st task gw ev list h1 h2, ?_⟩
  have hpos : 0 < st.loadingTasks.count task.id := List.count_pos_iff.mpr h3
  simp only [updateTaskStatusPending, List.count_append]
  have hone : List.count task.id [task.id] = 1 := by simp
  omega

/-- C3 witness: the amended theorem at stPending (loading already [1]) and a
second click on taskOne. -/
theorem c3_second_toggle_proceeds_witness :
    (handleTaskCheckClick stPending taskOne (Except.error gwErr) ev0).2.1
      = [GatewayCall.updateTask listOne.id taskOne.id
          { taskOne with status := if taskOne.status = TaskStatus.completed
              then TaskStatus.notStarted else TaskStatus.completed }]
    ∧ 2 ≤ ((updateTaskStatusPending stPending taskOne
          (if taskOne.status = TaskStatus.completed then TaskStatus.notStarted
           else TaskStatus.completed)).loadingTasks.count taskOne.id) :=
  c3_second_toggle_proceeds stPending taskOne (Except.error gwErr) ev0 listOne
    rfl rfl (by decide)

/-- C4: with an empty draft title or a submission already in flight, addTask
issues no gateway call and returns the state entirely unchanged. -/
theorem c4_addTask_noop (st : MgtTodoState) (gw : Except GatewayError TodoTask)
    (h : st.newTaskBeingAdded = true ∨ st.newTaskName = "") :
    addTask st gw = (st, []) := by
  unfold addTask
  rw [if_pos h]

/-- C4 witness: addTask at st0 (whose draft title is empty) with a failing
gateway is the identity and issues no call. -/
theorem c4_addTask_noop_witness :
    addTask st0 (Except.error gwErr) = (st0, []) :=
  c4_addTask_noop st0 (Except.error gwErr) (Or.inr rfl)

/-- C5: a submit with a non-empty title and no submission in flight issues
the createTask call; on success the returned task is prepended to the task
array (existing tasks keep their order); and on every outcome the draft
title is cleared, the due date reset and the new-task panel closed. -/
theorem c5_submit_prepends_and_clears (st : MgtTodoState)
    (gw : Except GatewayError TodoTask) (list : TodoTaskList)
    (h1 : st.newTaskBeingAdded = false) (h2 : st.newTaskName ≠ "")
    (h3 : st.currentList = some list) :
    (∀ task, gw = Except.ok task →
        (addTask st gw).1.tasks = st.tasks.map (fun ts => task :: ts))
    ∧ (addTask st gw).1.newTaskName = ""
    ∧ (addTask st gw).1.newTaskDueDate = none
    ∧ (addTask st gw).1.isNewTaskVisible = false
    ∧ (addTask st gw).1.newTaskBeingAdded = false
    ∧ (addTask st gw).2 = [GatewayCall.createTask list.id st.newTaskName] := by
  have hcond : ¬ (st.newTaskBeingAdded = true ∨ st.newTaskName = "") := by
    simp [h1, h2]
  cases gw with
  | ok task =>
    refine ⟨?_, ?_, ?_, ?_, ?_, ?_⟩ <;>
      simp [addTask, hcond, h3, hideNewTaskPanel]
  | error e =>
    refine ⟨?_, ?_, ?_, ?_, ?_, ?_⟩ <;>
      simp [addTask, hcond, h3, hideNewTaskPanel]

/-- Sample task returned by the gateway for the submit scenario. -/
def taskMilk : TodoTask := { id := "42", title := "Buy milk", status := TaskStatus.notStarted }

/-- Sample state with the draft title Buy milk. -/
def stDraft : MgtTodoState := { st0 with newTaskName := "Buy milk" }

/-- C5 witness: the submit theorem at stDraft (draft title Buy milk) with
the gateway returning task 42; the returned task is prepended and the draft
cleared. -/
theorem c5_submit_prepends_and_clears_witness :
    (∀ task, (Except.ok taskMilk : Except GatewayError TodoTask) = Except.ok task →
        (addTask stDraft (Except.ok taskMilk)).1.tasks
          = stDraft.tasks.map (fun ts => task :: ts))
    ∧ (addTask stDraft (Except.ok taskMilk)).1.newTaskName = ""
    ∧ (addTask stDraft (Except.ok taskMilk)).1.newTaskDueDate = none
    ∧ (addTask stDraft (Except.ok taskMilk)).1.isNewTaskVisible = false
    ∧ (addTask stDraft (Except.ok taskMilk)).1.newTaskBeingAdded = false
    ∧ (addTask stDraft (Except.ok taskMilk)).2
      = [GatewayCall.createTask listOne.id stDraft.newTaskName] :=
  c5_submit_prepends_and_clears stDraft (Except.ok taskMilk) listOne
    rfl (by decide) rfl

/-- C6: a task is a rendered row exactly when it is in the authoritative
task array, its id is not in the hidden set, and it passes the user filter
whenever one is set; in particular a hidden task is never rendered. -/
theorem c6_rendered_rows (st : MgtTodoState) (t : TodoTask) :
    t ∈ renderedTasks st ↔
      ((∃ ts, st.tasks = some ts ∧ t ∈ ts)
        ∧ st.hiddenTasks.contains t.id = false
        ∧ ∀ f, st.taskFilter = some f → f t = true) := by
  unfold renderedTasks
  rcases hts : st.tasks with _ | ts
  · simp [hts]
  · rcases hf : st.taskFilter with _ | f
    · simp [hts, hf, List.mem_filter, Bool.not_eq_true']
    · simp [hts, hf, List.mem_filter, Bool.not_eq_true', and_assoc]
      tauto

/-- C7: a removeTask whose gateway call succeeds leaves the task array equal
to the prior array with exactly the rows of that id filtered out (all other
tasks unchanged, in order), every id in the resulting array differs from the
removed id, and the id is absent from the hidden set. -/
theorem c7_remove_success (st : MgtTodoState) (ts : List TodoTask)
    (list : TodoTaskList) (taskId : String)
    (h1 : st.tasks = some ts) (h2 : st.currentList = some list) :
    (removeTask st taskId (Except.ok ())).1.tasks
        = some (ts.filter (fun t => t.id != taskId))
    ∧ (∀ ts2, (removeTask st taskId (Except.ok ())).1.tasks = some ts2 →
        ∀ t ∈ ts2, t.id ≠ taskId)
    ∧ taskId ∉ (removeTask st taskId (Except.ok ())).1.hiddenTasks := by
  have hres : (removeTask st taskId (Except.ok ())).1
      = { removeTaskPending st taskId with
          tasks := some (ts.filter (fun t => t.id != taskId)),
          hiddenTasks := (removeTaskPending st taskId).hiddenTasks.filter
            (fun i => i != taskId) } := by
    unfold removeTask removeTaskPending
    simp [h1, h2]
  refine ⟨?_, ?_, ?_⟩
  · rw [hres]
  · rw [hres]
    intro ts2 hts2 t ht
    cases hts2
    have := List.of_mem_filter ht
    simpa using this
  · rw [hres]
    simp [List.mem_filter]

/-- C7 witness: removing task 1 from st0 with gateway success leaves an
empty task array and an empty hidden set. -/
theorem c7_remove_success_witness :
    (removeTask st0 "1" (Except.ok ())).1.tasks
        = some ([taskOne].filter (fun t => t.id != "1"))
    ∧ (∀ ts2, (removeTask st0 "1" (Except.ok ())).1.tasks = some ts2 →
        ∀ t ∈ ts2, t.id ≠ "1")
    ∧ "1" ∉ (removeTask st0 "1" (Except.ok ())).1.hiddenTasks :=
  c7_remove_success st0 [taskOne] listOne "1" rfl rfl

/-- C8: every planner gateway operation attaches the Cache-Control no-store
header, every list or get operation attaches the Group.Read.All scope, and
every create, update or delete operation (assignPeopleToTask included)
attaches the Group.ReadWrite.All scope. -/
theorem c8_gateway_cache_and_scopes (taskId planId bucketId taskData details people : String) :
    (("Cache-Control", "no-store") ∈ (deletePlannerTask taskId).headers
      ∧ (deletePlannerTask taskId).scopes = ["Group.ReadWrite.All"])
    ∧ (("Cache-Control", "no-store") ∈ (createPlannerTask taskData).headers
      ∧ (createPlannerTask taskData).scopes = ["Group.ReadWrite.All"])
    ∧ (("Cache-Control", "no-store") ∈ (updatePlannerTask taskId details).headers
      ∧ (updatePlannerTask taskId details).scopes = ["Group.ReadWrite.All"])
    ∧ (("Cache-Control", "no-store") ∈ (assignPeopleToTask taskId people).headers
      ∧ (assignPeopleToTask taskId people).scopes = ["Group.ReadWrite.All"])
    ∧ (("Cache-Control", "no-store") ∈ (getPlannerPlan planId).headers
      ∧ (getPlannerPlan planId).scopes = ["Group.Read.All"])
    ∧ (("Cache-Control", "no-store") ∈ getMyPlannerPlans.headers
      ∧ getMyPlannerPlans.scopes = ["Group.Read.All"])
    ∧ (("Cache-Control", "no-store") ∈ (getPlannerBucket planId bucketId).headers
      ∧ (getPlannerBucket planId bucketId).scopes = ["Group.Read.All"])
    ∧ (("Cache-Control", "no-store") ∈ (getPlannerBuckets planId).headers
      ∧ (getPlannerBuckets planId).scopes = ["Group.Read.All"])
    ∧ (("Cache-Control", "no-store") ∈ (getPlannerTasks bucketId).headers
      ∧ (getPlannerTasks bucketId).scopes = ["Group.Read.All"]) := by
  refine ⟨⟨?_, rfl⟩, ⟨?_, rfl⟩, ⟨?_, rfl⟩, ⟨?_, rfl⟩, ⟨?_, rfl⟩,
    ⟨?_, rfl⟩, ⟨?_, rfl⟩, ⟨?_, rfl⟩, ⟨?_, rfl⟩⟩ <;> simp [deletePlannerTask,
    createPlannerTask, updatePlannerTask, assignPeopleToTask, getPlannerPlan,
    getMyPlannerPlans, getPlannerBucket, getPlannerBuckets, getPlannerTasks]

/-- C9: in non-read-only mode with a selected list, the check-click requests
exactly one update: to notStarted when the task is completed, and to
completed for any other status. -/
theorem c9_toggle_target (st : MgtTodoState) (task : TodoTask)
    (gw : Except GatewayError TodoTask) (ev : DomEvent) (list : TodoTaskList)
    (h1 : st.readOnly = false) (h2 : st.currentList = some list) :
    (task.status = TaskStatus.completed ∧
        (handleTaskCheckClick st task gw ev).2.1
          = [GatewayCall.updateTask list.id task.id
              { task with status := TaskStatus.notStarted }])
    ∨ (task.status ≠ TaskStatus.completed ∧
        (handleTaskCheckClick st task gw ev).2.1
          = [GatewayCall.updateTask list.id task.id
              { task with status := TaskStatus.completed }]) := by
  have h := handleTaskCheckClick_calls st task gw ev list h1 h2
  by_cases hc : task.status = TaskStatus.completed
  · left
    refine ⟨hc, ?_⟩
    rw [h, if_pos hc]
  · right
    refine ⟨hc, ?_⟩
    rw [h, if_neg hc]

/-- C9 witness: clicking the notStarted taskOne in st0 requests an update to
completed. -/
theorem c9_toggle_target_witness :
    (taskOne.status = TaskStatus.completed ∧
        (handleTaskCheckClick st0 taskOne (Except.error gwErr) ev0).2.1
          = [GatewayCall.updateTask listOne.id taskOne.id
              { taskOne with status := TaskStatus.notStarted }])
    ∨ (taskOne.status ≠ TaskStatus.completed ∧
        (handleTaskCheckClick st0 taskOne (Except.error gwErr) ev0).2.1
          = [GatewayCall.updateTask listOne.id taskOne.id
              { taskOne with status := TaskStatus.completed }]) :=
  c9_toggle_target st0 taskOne (Except.error gwErr) ev0 listOne rfl rfl

/-- C10: in read-only mode a check-click is a complete no-op: the state is
returned unchanged, no gateway call is issued, and the browser event is
neither stopped nor default-prevented. -/
theorem c10_readonly_click_noop (st : MgtTodoState) (task : TodoTask)
    (gw : Except GatewayError TodoTask) (ev : DomEvent)
    (h : st.readOnly = true) :
    handleTaskCheckClick st task gw ev = (st, [], ev) := by
  unfold handleTaskCheckClick
  rw [if_pos h]

/-- Sample read-only state. -/
def stReadOnly : MgtTodoState := { st0 with readOnly := true }

/-- C10 witness: a check-click on taskOne in the read-only state returns the
state, no calls and the untouched event. -/
theorem c10_readonly_click_noop_witness :
    handleTaskCheckClick stReadOnly taskOne (Except.error gwErr) ev0
      = (stReadOnly, [], ev0) :=
  c10_readonly_click_noop stReadOnly taskOne (Except.error gwErr) ev0 rfl

end MgtTodo
